import Mathlib

/-!
# The Steam bridge of `src/yee/steam_init.cpp`

The four exported functions `Steam_Init`, `RequestEncryptedAppTicket`,
`GetEncryptedAppTicket` and `GetSteamID` forward to the Steamworks SDK.  The SDK
itself is closed; it is modelled as a record `SteamSdk` holding, for each SDK
entry point the bridge uses, what that entry point answers.  Each bridge
function returns its C++ return value together with the sequence of SDK calls it
made, in order.

Conventions of the embedding:

* a pointer is its address, a `Nat`, and `nullptr` is address `0`;
* `uint32` and `uint64` values are `Nat`s reduced modulo `2^32` and `2^64`,
  `int` values are `Int`s;
* an out-parameter is passed as its value before the call and returned as its
  value after the call;
* calling a member function through a null interface pointer has no defined
  behaviour: the bridge function then yields `none`.
-/

namespace Yee

/-- Constants of the SDK headers (`steam/steam_api.h`) that the bridge compares
against.  The headers are not among the sources, so the values are parameters. -/
structure SteamConstants where
  /-- The `ESteamAPIInitResult` enumerator that means success. -/
  k_ESteamAPIInitResult_OK : Int
  /-- The `SteamAPICall_t` sentinel for a call that was not accepted. -/
  k_uAPICallInvalid : Nat

/-- The null pointer. -/
def nullptr : Nat := 0

/-- One call into the SDK, with the arguments the bridge chooses. -/
inductive SdkCall where
  /-- The call `SteamAPI_InitFlat(&errMsg)`. -/
  | SteamAPI_InitFlat
  /-- The call `SteamAPI_ManualDispatch_Init()`. -/
  | SteamAPI_ManualDispatch_Init
  /-- The accessor `SteamUser()`. -/
  | SteamUser
  /-- The member call `self->RequestEncryptedAppTicket(pDataToInclude, cbDataToInclude)`. -/
  | RequestEncryptedAppTicket (self : Nat) (pDataToInclude : Nat) (cbDataToInclude : Int)
  /-- The member call `self->GetEncryptedAppTicket(pTicket, cbMaxTicket, &actualSize)`. -/
  | GetEncryptedAppTicket (self : Nat) (cbMaxTicket : Int)
  /-- The flat accessor `SteamAPI_SteamUser_v023()`. -/
  | SteamAPI_SteamUser_v023
  /-- The flat call `SteamAPI_ISteamUser_GetSteamID(self)`. -/
  | SteamAPI_ISteamUser_GetSteamID (self : Nat)
  deriving DecidableEq, Repr

/-- Whether a call is the SDK ticket request. -/
def SdkCall.isTicketRequest : SdkCall → Bool
  | .RequestEncryptedAppTicket _ _ _ => true
  | _ => false

/-- Whether a call is the SDK identifier accessor. -/
def SdkCall.isGetSteamID : SdkCall → Bool
  | .SteamAPI_ISteamUser_GetSteamID _ => true
  | _ => false

/-- What `SteamAPI_InitFlat` answers: its result code and the characters it left
in the `SteamErrMsg` it was handed. -/
structure InitResponse where
  /-- The `ESteamAPIInitResult` returned. -/
  result : Int
  /-- The contents of `*pOutErrMsg` after the call. -/
  errMsg : List Nat
  deriving DecidableEq, Repr

/-- What `ISteamUser::GetEncryptedAppTicket` answers. -/
structure TicketResponse where
  /-- The `bool` returned. -/
  success : Bool
  /-- The contents of the caller's buffer after the call. -/
  ticket : List Nat
  /-- The value of `*pcbTicket` after the call. -/
  cbTicket : Nat
  deriving DecidableEq, Repr

/-- The SDK as the bridge sees it: the answer of every entry point it uses. -/
structure SteamSdk where
  /-- Answer of `SteamAPI_InitFlat(&errMsg)`. -/
  SteamAPI_InitFlat : InitResponse
  /-- The `ISteamUser*` that `SteamUser()` returns. -/
  SteamUser : Nat
  /-- The `SteamAPICall_t` of `self->RequestEncryptedAppTicket(pData, cbData)`. -/
  RequestEncryptedAppTicket : Nat → Nat → Int → Nat
  /-- Answer of `self->GetEncryptedAppTicket(pTicket, cbMaxTicket, pcbTicket)`, from
  the buffer contents, the capacity and the value of `*pcbTicket` before the call. -/
  GetEncryptedAppTicket : Nat → List Nat → Int → Nat → TicketResponse
  /-- The `ISteamUser*` that `SteamAPI_SteamUser_v023()` returns. -/
  SteamAPI_SteamUser_v023 : Nat
  /-- The `uint64` of `SteamAPI_ISteamUser_GetSteamID(self)`. -/
  SteamAPI_ISteamUser_GetSteamID : Nat → Nat

/-- The conversion `static_cast<int>(x)` of a `uint32` to a 32-bit `int`. -/
def static_cast_int (x : Nat) : Int :=
  if x % 2 ^ 32 < 2 ^ 31 then ((x % 2 ^ 32 : Nat) : Int)
  else ((x % 2 ^ 32 : Nat) : Int) - 2 ^ 32

/-- The function `bool Steam_Init()`: its return value and the SDK calls it made. -/
def Steam_Init (c : SteamConstants) (sdk : SteamSdk) : Bool × List SdkCall :=
  let result := sdk.SteamAPI_InitFlat.result
  if result ≠ c.k_ESteamAPIInitResult_OK then
    (false, [SdkCall.SteamAPI_InitFlat])
  else
    (true, [SdkCall.SteamAPI_InitFlat, SdkCall.SteamAPI_ManualDispatch_Init])

/-- The function `bool RequestEncryptedAppTicket()`: `none` when `SteamUser()` is
null (the member call is then undefined), else its return value and SDK calls. -/
def RequestEncryptedAppTicket (c : SteamConstants) (sdk : SteamSdk) :
    Option (Bool × List SdkCall) :=
  let user := sdk.SteamUser
  if user = nullptr then none
  else
    let apiCall := sdk.RequestEncryptedAppTicket user nullptr 0 % 2 ^ 64
    some (decide (apiCall ≠ c.k_uAPICallInvalid % 2 ^ 64),
          [SdkCall.SteamUser, SdkCall.RequestEncryptedAppTicket user nullptr 0])

/-- The function `int GetEncryptedAppTicket(void* buf, int bufSize)`, `buf` given
by the contents of the caller's buffer: `none` when `SteamUser()` is null, else
the return value, the buffer contents afterwards and the SDK calls. -/
def GetEncryptedAppTicket (sdk : SteamSdk) (buf : List Nat) (bufSize : Int) :
    Option (Int × List Nat × List SdkCall) :=
  let actualSize : Nat := 0
  let user := sdk.SteamUser
  if user = nullptr then none
  else
    let r := sdk.GetEncryptedAppTicket user buf bufSize actualSize
    let actualSize := r.cbTicket % 2 ^ 32
    some (if r.success then static_cast_int actualSize else 0,
          r.ticket,
          [SdkCall.SteamUser, SdkCall.GetEncryptedAppTicket user bufSize])

/-- The function `uint64 GetSteamID()`: its return value and the SDK calls it made. -/
def GetSteamID (sdk : SteamSdk) : Nat × List SdkCall :=
  let user := sdk.SteamAPI_SteamUser_v023
  if user = nullptr then
    (0, [SdkCall.SteamAPI_SteamUser_v023])
  else
    (sdk.SteamAPI_ISteamUser_GetSteamID user % 2 ^ 64,
     [SdkCall.SteamAPI_SteamUser_v023, SdkCall.SteamAPI_ISteamUser_GetSteamID user])

/-! ## Concrete SDKs for worked examples -/

/-- Sample header constants: both sentinels are `0`. -/
def sampleConstants : SteamConstants := ⟨0, 0⟩

/-- An SDK that is up: initialisation succeeds, the user interface lives at
address `4096`, the ticket request is accepted with handle `77`, the ticket has
three bytes and the signed-in user is `76561197960287930`. -/
def sdkReady : SteamSdk where
  SteamAPI_InitFlat := ⟨0, []⟩
  SteamUser := 4096
  RequestEncryptedAppTicket := fun _ _ _ => 77
  GetEncryptedAppTicket := fun _ _ _ _ => ⟨true, [1, 2, 3], 3⟩
  SteamAPI_SteamUser_v023 := 4096
  SteamAPI_ISteamUser_GetSteamID := fun _ => 76561197960287930

/-- An SDK without a running client: initialisation answers code `2` with a
message, every interface is null. -/
def sdkNoClient : SteamSdk where
  SteamAPI_InitFlat := ⟨2, [78, 111]⟩
  SteamUser := 0
  RequestEncryptedAppTicket := fun _ _ _ => 0
  GetEncryptedAppTicket := fun _ buf _ n => ⟨false, buf, n⟩
  SteamAPI_SteamUser_v023 := 0
  SteamAPI_ISteamUser_GetSteamID := fun _ => 0

/-- The SDK `sdkNoClient` with another error message for the same result code. -/
def sdkNoClientOtherMsg : SteamSdk where
  SteamAPI_InitFlat := ⟨2, [83, 116, 101, 97, 109]⟩
  SteamUser := 0
  RequestEncryptedAppTicket := fun _ _ _ => 0
  GetEncryptedAppTicket := fun _ buf _ n => ⟨false, buf, n⟩
  SteamAPI_SteamUser_v023 := 0
  SteamAPI_ISteamUser_GetSteamID := fun _ => 0

/-- An SDK with a user interface that rejects the ticket request and has no
ticket; on retrieval it still reports the size `9` a ticket would need. -/
def sdkNoTicket : SteamSdk where
  SteamAPI_InitFlat := ⟨0, []⟩
  SteamUser := 4096
  RequestEncryptedAppTicket := fun _ _ _ => 0
  GetEncryptedAppTicket := fun _ buf _ _ => ⟨false, buf, 9⟩
  SteamAPI_SteamUser_v023 := 4096
  SteamAPI_ISteamUser_GetSteamID := fun _ => 76561197960287930

/-- An SDK whose ticket retrieval reports success with the given size, whatever
the capacity it was handed. -/
def sdkTicketOfSize (n : Nat) : SteamSdk where
  SteamAPI_InitFlat := ⟨0, []⟩
  SteamUser := 4096
  RequestEncryptedAppTicket := fun _ _ _ => 77
  GetEncryptedAppTicket := fun _ buf _ _ => ⟨true, buf, n⟩
  SteamAPI_SteamUser_v023 := 4096
  SteamAPI_ISteamUser_GetSteamID := fun _ => 76561197960287930

/-! ## Helper facts -/

/-- A `uint32` below `2^31` converts to the same number as an `int`. -/
theorem static_cast_int_of_lt (x : Nat) (h : x < 2 ^ 31) : static_cast_int x = (x : Int) := by
  have h32 : x % 2 ^ 32 = x := Nat.mod_eq_of_lt (by omega)
  unfold static_cast_int
  rw [h32, if_pos h]

/-- With a user interface that is not null, `GetEncryptedAppTicket` returns: the
value is the converted size on success and 0 on failure. -/
theorem GetEncryptedAppTicket_of_user (sdk : SteamSdk) (buf : List Nat) (bufSize : Int)
    (hu : sdk.SteamUser ≠ nullptr) :
    Option.map Prod.fst (GetEncryptedAppTicket sdk buf bufSize) =
      some (if (sdk.GetEncryptedAppTicket sdk.SteamUser buf bufSize 0).success then
        static_cast_int ((sdk.GetEncryptedAppTicket sdk.SteamUser buf bufSize 0).cbTicket % 2 ^ 32)
        else 0) := by
  unfold GetEncryptedAppTicket
  simp only [if_neg hu, Option.map_some']

/-! ## Steam_Init -/

/-- C1: when the SDK initialisation answers any result code other than OK, with
any error message, `Steam_Init` returns false and its SDK calls are the single
initialisation call; `SteamAPI_ManualDispatch_Init` is not among them. -/
theorem Steam_Init_not_OK (c : SteamConstants) (sdk : SteamSdk)
    (h : sdk.SteamAPI_InitFlat.result ≠ c.k_ESteamAPIInitResult_OK) :
    Steam_Init c sdk = (false, [SdkCall.SteamAPI_InitFlat]) ∧
      SdkCall.SteamAPI_ManualDispatch_Init ∉ (Steam_Init c sdk).2 := by
  have e : Steam_Init c sdk = (false, [SdkCall.SteamAPI_InitFlat]) := by
    unfold Steam_Init
    simp only [if_pos h]
  refine ⟨e, ?_⟩
  rw [e]
  decide

/-- Witness of C1 on an SDK answering code 2 with a message. -/
theorem Steam_Init_not_OK_witness :
    sdkNoClient.SteamAPI_InitFlat.result ≠ sampleConstants.k_ESteamAPIInitResult_OK ∧
      Steam_Init sampleConstants sdkNoClient = (false, [SdkCall.SteamAPI_InitFlat]) ∧
      SdkCall.SteamAPI_ManualDispatch_Init ∉ (Steam_Init sampleConstants sdkNoClient).2 :=
  ⟨by decide, Steam_Init_not_OK sampleConstants sdkNoClient (by decide)⟩

/-- C2: when the SDK initialisation answers OK, `Steam_Init` returns true and its
SDK calls are the initialisation call followed by `SteamAPI_ManualDispatch_Init`,
which occurs exactly once. -/
theorem Steam_Init_OK (c : SteamConstants) (sdk : SteamSdk)
    (h : sdk.SteamAPI_InitFlat.result = c.k_ESteamAPIInitResult_OK) :
    Steam_Init c sdk =
        (true, [SdkCall.SteamAPI_InitFlat, SdkCall.SteamAPI_ManualDispatch_Init]) ∧
      (Steam_Init c sdk).2.count SdkCall.SteamAPI_ManualDispatch_Init = 1 := by
  have e : Steam_Init c sdk =
      (true, [SdkCall.SteamAPI_InitFlat, SdkCall.SteamAPI_ManualDispatch_Init]) := by
    unfold Steam_Init
    simp only [ne_eq, h, not_true_eq_false, if_false]
  refine ⟨e, ?_⟩
  rw [e]
  decide

/-- Witness of C2 on an SDK whose initialisation succeeds. -/
theorem Steam_Init_OK_witness :
    sdkReady.SteamAPI_InitFlat.result = sampleConstants.k_ESteamAPIInitResult_OK ∧
      Steam_Init sampleConstants sdkReady =
        (true, [SdkCall.SteamAPI_InitFlat, SdkCall.SteamAPI_ManualDispatch_Init]) ∧
      (Steam_Init sampleConstants sdkReady).2.count SdkCall.SteamAPI_ManualDispatch_Init = 1 :=
  ⟨by decide, Steam_Init_OK sampleConstants sdkReady (by decide)⟩

/-- C9: two SDKs whose initialisation answers the same result code, whatever error
messages they write, make `Steam_Init` return the same boolean and the same SDK
calls. -/
theorem Steam_Init_ignores_errMsg (c : SteamConstants) (sdk₁ sdk₂ : SteamSdk)
    (h : sdk₁.SteamAPI_InitFlat.result = sdk₂.SteamAPI_InitFlat.result) :
    Steam_Init c sdk₁ = Steam_Init c sdk₂ := by
  unfold Steam_Init
  simp only [h]

/-- Witness of C9 on two SDKs answering code 2 with different messages. -/
theorem Steam_Init_ignores_errMsg_witness :
    sdkNoClient.SteamAPI_InitFlat.result = sdkNoClientOtherMsg.SteamAPI_InitFlat.result ∧
      sdkNoClient.SteamAPI_InitFlat.errMsg ≠ sdkNoClientOtherMsg.SteamAPI_InitFlat.errMsg ∧
      Steam_Init sampleConstants sdkNoClient = Steam_Init sampleConstants sdkNoClientOtherMsg :=
  ⟨by decide, by decide,
    Steam_Init_ignores_errMsg sampleConstants sdkNoClient sdkNoClientOtherMsg (by decide)⟩

/-! ## RequestEncryptedAppTicket -/

/-- C3: for every 64-bit handle `h` that the SDK ticket request returns (so the
request was made, on a user interface that is not null), the function
`RequestEncryptedAppTicket` returns true exactly when `h` differs from
`k_uAPICallInvalid`, and false exactly when `h` is that sentinel. -/
theorem RequestEncryptedAppTicket_true_iff_valid (c : SteamConstants) (sdk : SteamSdk) (h : Nat)
    (hu : sdk.SteamUser ≠ nullptr) (hh : h < 2 ^ 64) (hc : c.k_uAPICallInvalid < 2 ^ 64)
    (hr : sdk.RequestEncryptedAppTicket sdk.SteamUser nullptr 0 = h) :
    (Option.map Prod.fst (RequestEncryptedAppTicket c sdk) = some true ↔
        h ≠ c.k_uAPICallInvalid) ∧
      (Option.map Prod.fst (RequestEncryptedAppTicket c sdk) = some false ↔
        h = c.k_uAPICallInvalid) := by
  unfold RequestEncryptedAppTicket
  simp only [if_neg hu, hr, Nat.mod_eq_of_lt hh, Nat.mod_eq_of_lt hc, Option.map_some']
  by_cases e : h = c.k_uAPICallInvalid <;> simp [e]

/-- Witness of C3: the handle 77 is accepted, the sentinel is 0. -/
theorem RequestEncryptedAppTicket_true_iff_valid_witness :
    (Option.map Prod.fst (RequestEncryptedAppTicket sampleConstants sdkReady) = some true ↔
        77 ≠ sampleConstants.k_uAPICallInvalid) ∧
      (Option.map Prod.fst (RequestEncryptedAppTicket sampleConstants sdkReady) = some false ↔
        77 = sampleConstants.k_uAPICallInvalid) :=
  RequestEncryptedAppTicket_true_iff_valid sampleConstants sdkReady 77
    (by decide) (by decide) (by decide) rfl

/-- C10, as stated, fails when `SteamUser()` is null: the member call goes through
a null pointer, so the invocation has no defined result and no ticket request. -/
theorem RequestEncryptedAppTicket_null_user_undefined :
    sdkNoClient.SteamUser = nullptr ∧
      RequestEncryptedAppTicket sampleConstants sdkNoClient = none :=
  ⟨rfl, rfl⟩

/-- C10, amended: whenever `SteamUser()` is not null, `RequestEncryptedAppTicket`
returns and its SDK calls are the accessor followed by one ticket request, which
is the only ticket request and carries a null data pointer and data length 0. -/
theorem RequestEncryptedAppTicket_one_request_no_data (c : SteamConstants) (sdk : SteamSdk)
    (hu : sdk.SteamUser ≠ nullptr) :
    ∃ b calls, RequestEncryptedAppTicket c sdk = some (b, calls) ∧
      calls = [SdkCall.SteamUser, SdkCall.RequestEncryptedAppTicket sdk.SteamUser nullptr 0] ∧
      calls.filter SdkCall.isTicketRequest =
        [SdkCall.RequestEncryptedAppTicket sdk.SteamUser 0 0] := by
  refine ⟨decide (sdk.RequestEncryptedAppTicket sdk.SteamUser nullptr 0 % 2 ^ 64 ≠
    c.k_uAPICallInvalid % 2 ^ 64), _, ?_, rfl, rfl⟩
  unfold RequestEncryptedAppTicket
  simp only [if_neg hu]

/-- Witness of C10 amended, on an SDK whose user interface is at address 4096. -/
theorem RequestEncryptedAppTicket_one_request_no_data_witness :
    sdkReady.SteamUser ≠ nullptr ∧
      ∃ b calls, RequestEncryptedAppTicket sampleConstants sdkReady = some (b, calls) ∧
        calls = [SdkCall.SteamUser,
          SdkCall.RequestEncryptedAppTicket sdkReady.SteamUser nullptr 0] ∧
        calls.filter SdkCall.isTicketRequest =
          [SdkCall.RequestEncryptedAppTicket sdkReady.SteamUser 0 0] :=
  ⟨by decide, RequestEncryptedAppTicket_one_request_no_data sampleConstants sdkReady (by decide)⟩

/-! ## GetEncryptedAppTicket -/

/-- C4: when the SDK ticket retrieval reports failure, `GetEncryptedAppTicket`
returns 0, for every buffer content, every capacity and every size the SDK left
in its size output. -/
theorem GetEncryptedAppTicket_failure_zero (sdk : SteamSdk) (buf : List Nat) (bufSize : Int)
    (hu : sdk.SteamUser ≠ nullptr)
    (hf : (sdk.GetEncryptedAppTicket sdk.SteamUser buf bufSize 0).success = false) :
    Option.map Prod.fst (GetEncryptedAppTicket sdk buf bufSize) = some 0 := by
  rw [GetEncryptedAppTicket_of_user sdk buf bufSize hu, hf]
  rfl

/-- Witness of C4: the SDK fails and leaves size 9 in its size output. -/
theorem GetEncryptedAppTicket_failure_zero_witness :
    (sdkNoTicket.GetEncryptedAppTicket sdkNoTicket.SteamUser [7, 7, 7] 3 0).cbTicket = 9 ∧
      Option.map Prod.fst (GetEncryptedAppTicket sdkNoTicket [7, 7, 7] 3) = some 0 :=
  ⟨rfl, GetEncryptedAppTicket_failure_zero sdkNoTicket [7, 7, 7] 3 (by decide) rfl⟩

/-- C5: for a 32-bit signed capacity and an actual size `n ≤ capacity`, when the
SDK ticket retrieval reports success with actual size `n`, the function
`GetEncryptedAppTicket` returns exactly `n`. -/
theorem GetEncryptedAppTicket_success_size (sdk : SteamSdk) (buf : List Nat) (bufSize : Int)
    (n : Nat) (hu : sdk.SteamUser ≠ nullptr) (hcap : bufSize < 2 ^ 31) (hn : (n : Int) ≤ bufSize)
    (hs : (sdk.GetEncryptedAppTicket sdk.SteamUser buf bufSize 0).success = true)
    (hsz : (sdk.GetEncryptedAppTicket sdk.SteamUser buf bufSize 0).cbTicket = n) :
    Option.map Prod.fst (GetEncryptedAppTicket sdk buf bufSize) = some (n : Int) := by
  have h31 : n < 2 ^ 31 := by omega
  have h32 : n % 2 ^ 32 = n := Nat.mod_eq_of_lt (by omega)
  rw [GetEncryptedAppTicket_of_user sdk buf bufSize hu, hs, hsz, h32,
    static_cast_int_of_lt n h31]
  rfl

/-- Witness of C5: capacity 4, the SDK succeeds with a ticket of 3 bytes. -/
theorem GetEncryptedAppTicket_success_size_witness :
    Option.map Prod.fst (GetEncryptedAppTicket sdkReady [0, 0, 0, 0] 4) = some ((3 : Nat) : Int) :=
  GetEncryptedAppTicket_success_size sdkReady [0, 0, 0, 0] 4 3
    (by decide) (by decide) (by decide) rfl rfl

/-- C6, as stated, fails: the returned value is the size the SDK reported, not
bounded by the capacity.  With capacity 4 a reported size 10 returns 10, a
reported size `2^32 - 1` returns -1, and with capacity -1 a failure returns 0. -/
theorem GetEncryptedAppTicket_not_within_capacity :
    (Option.map Prod.fst (GetEncryptedAppTicket (sdkTicketOfSize 10) [0, 0, 0, 0] 4) = some 10 ∧
        ¬ ((10 : Int) ≤ 4)) ∧
      (Option.map Prod.fst (GetEncryptedAppTicket (sdkTicketOfSize 4294967295) [0, 0, 0, 0] 4)
          = some (-1) ∧ ¬ ((0 : Int) ≤ -1)) ∧
      (Option.map Prod.fst (GetEncryptedAppTicket sdkNoTicket [] (-1)) = some 0 ∧
        ¬ ((0 : Int) ≤ -1)) := by
  refine ⟨⟨?_, by decide⟩, ⟨?_, by decide⟩, ⟨?_, by decide⟩⟩
  · decide
  · decide
  · decide

/-- C6, amended: for a 32-bit signed capacity that is not negative and an SDK
answer that is a failure, or a success with actual size at most the capacity,
`GetEncryptedAppTicket` returns a value between 0 and the capacity: 0 on
failure, the reported actual size on success. -/
theorem GetEncryptedAppTicket_within_capacity (sdk : SteamSdk) (buf : List Nat) (bufSize : Int)
    (hu : sdk.SteamUser ≠ nullptr) (h0 : 0 ≤ bufSize) (hcap : bufSize < 2 ^ 31)
    (hsz : (sdk.GetEncryptedAppTicket sdk.SteamUser buf bufSize 0).success = true →
      ((sdk.GetEncryptedAppTicket sdk.SteamUser buf bufSize 0).cbTicket : Int) ≤ bufSize) :
    ∃ r : Int, Option.map Prod.fst (GetEncryptedAppTicket sdk buf bufSize) = some r ∧
      0 ≤ r ∧ r ≤ bufSize ∧
      r = (if (sdk.GetEncryptedAppTicket sdk.SteamUser buf bufSize 0).success then
            ((sdk.GetEncryptedAppTicket sdk.SteamUser buf bufSize 0).cbTicket : Int) else 0) := by
  rw [GetEncryptedAppTicket_of_user sdk buf bufSize hu]
  cases hs : (sdk.GetEncryptedAppTicket sdk.SteamUser buf bufSize 0).success with
  | false => exact ⟨0, rfl, le_refl 0, h0, rfl⟩
  | true =>
    have hle := hsz hs
    have h31 : (sdk.GetEncryptedAppTicket sdk.SteamUser buf bufSize 0).cbTicket < 2 ^ 31 := by
      omega
    have h32 : (sdk.GetEncryptedAppTicket sdk.SteamUser buf bufSize 0).cbTicket % 2 ^ 32 =
        (sdk.GetEncryptedAppTicket sdk.SteamUser buf bufSize 0).cbTicket :=
      Nat.mod_eq_of_lt (by omega)
    rw [h32, static_cast_int_of_lt _ h31]
    exact ⟨_, rfl, Int.ofNat_nonneg _, hle, rfl⟩

/-- Witness of C6 amended: capacity 4, the SDK succeeds with a ticket of 3 bytes. -/
theorem GetEncryptedAppTicket_within_capacity_witness :
    ∃ r : Int, Option.map Prod.fst (GetEncryptedAppTicket sdkReady [0, 0, 0, 0] 4) = some r ∧
      0 ≤ r ∧ r ≤ 4 ∧
      r = (if (sdkReady.GetEncryptedAppTicket sdkReady.SteamUser [0, 0, 0, 0] 4 0).success then
            ((sdkReady.GetEncryptedAppTicket sdkReady.SteamUser [0, 0, 0, 0] 4 0).cbTicket : Int)
          else 0) :=
  GetEncryptedAppTicket_within_capacity sdkReady [0, 0, 0, 0] 4
    (by decide) (by decide) (by decide) (fun _ => by decide)

/-! ## GetSteamID -/

/-- C7: when `SteamAPI_SteamUser_v023()` returns null, `GetSteamID` returns 0 and
its only SDK call is that resolution: `SteamAPI_ISteamUser_GetSteamID` is not
called. -/
theorem GetSteamID_null_user (sdk : SteamSdk) (h : sdk.SteamAPI_SteamUser_v023 = nullptr) :
    GetSteamID sdk = (0, [SdkCall.SteamAPI_SteamUser_v023]) ∧
      (GetSteamID sdk).2.any SdkCall.isGetSteamID = false := by
  have e : GetSteamID sdk = (0, [SdkCall.SteamAPI_SteamUser_v023]) := by
    unfold GetSteamID
    simp only [if_pos h]
  refine ⟨e, ?_⟩
  rw [e]
  rfl

/-- Witness of C7 on an SDK whose interfaces are null. -/
theorem GetSteamID_null_user_witness :
    sdkNoClient.SteamAPI_SteamUser_v023 = nullptr ∧
      GetSteamID sdkNoClient = (0, [SdkCall.SteamAPI_SteamUser_v023]) ∧
      (GetSteamID sdkNoClient).2.any SdkCall.isGetSteamID = false :=
  ⟨rfl, GetSteamID_null_user sdkNoClient rfl⟩

/-- C8: when `SteamAPI_SteamUser_v023()` returns an interface that is not null and
`SteamAPI_ISteamUser_GetSteamID` on it reports the 64-bit value `v`, the function
`GetSteamID` returns exactly `v`. -/
theorem GetSteamID_verbatim (sdk : SteamSdk) (v : Nat)
    (hu : sdk.SteamAPI_SteamUser_v023 ≠ nullptr) (hv : v < 2 ^ 64)
    (hr : sdk.SteamAPI_ISteamUser_GetSteamID sdk.SteamAPI_SteamUser_v023 = v) :
    (GetSteamID sdk).1 = v := by
  unfold GetSteamID
  simp only [if_neg hu, hr, Nat.mod_eq_of_lt hv]

/-- Witness of C8: the identifier 76561197960287930 comes back unchanged. -/
theorem GetSteamID_verbatim_witness :
    (GetSteamID sdkReady).1 = 76561197960287930 :=
  GetSteamID_verbatim sdkReady 76561197960287930 (by decide) (by decide) rfl

end Yee
